import Mathlib

/-!
Shallow embedding of the core of `loaders.py` (Trogris/Max02): the YouTube
video-id extractor `_extract_youtube_id` and the transcript loader
`carrega_youtube`.  Strings are modelled as `List Char` internally (Lean's
`String` wraps `List Char`); Python's stdlib helpers (`str.strip`,
`str.lower`, `str.replace`, `urllib.parse.urlparse`, `urllib.parse.parse_qs`)
are embedded for the ASCII fragment they are used on here.
-/

namespace Max02

/-- The identifier alphabet `[A-Za-z0-9_-]` of the regexes in
`_extract_youtube_id` (Python `re` ranges `A-Z`, `a-z`, `0-9` are ASCII). -/
def isIdChar (c : Char) : Bool :=
  c.isAlpha || c.isDigit || c = '_' || c = '-'

/-- Embeds `re.fullmatch(r"[A-Za-z0-9_-]{11}", s)`: exactly 11 characters, all from
the identifier alphabet. -/
def isValidIdL (l : List Char) : Bool :=
  l.length == 11 && l.all isIdChar

/-- Python `str.isspace` characters used by `str.strip()` (ASCII fragment). -/
def pyIsSpace (c : Char) : Bool :=
  c = ' ' || c = '\t' || c = '\n' || c = '\r' || c = '\x0b' || c = '\x0c'

/-- Python `str.strip()`: drop whitespace from both ends. -/
def pyStripL (l : List Char) : List Char :=
  ((l.dropWhile pyIsSpace).reverse.dropWhile pyIsSpace).reverse

/-- Python `str.strip()` on `String`. -/
def pyStrip (s : String) : String :=
  ⟨pyStripL s.data⟩

/-- Python `url_or_id or ""`: `None` coerces to the empty string (a falsy
string is itself replaced by `""`, which is the identity on strings). -/
def pyOrEmpty (o : Option String) : String :=
  o.getD ("")

/-- Embeds `host.replace("www.", "")`: Python `str.replace` removes EVERY
(non-overlapping, left-to-right) occurrence of the pattern, not only a
leading one. -/
def removeWWW : List Char → List Char
  | 'w' :: 'w' :: 'w' :: '.' :: rest => removeWWW rest
  | c :: rest => c :: removeWWW rest
  | [] => []

/-- Helper: drop the literal `pre` from the front of
`l`, or fail. -/
def dropPref : List Char → List Char → Option (List Char)
  | [], l => some l
  | _ :: _, [] => none
  | p :: ps, c :: cs => if c = p then dropPref ps cs else none

/-- Does `"www."` occur (as a contiguous substring) anywhere in `l`? -/
def hasWWW : List Char → Bool
  | 'w' :: 'w' :: 'w' :: '.' :: _ => true
  | _ :: rest => hasWWW rest
  | [] => false

/-- Python `str.endswith`: `l` ends with the suffix `sfx`. -/
def sfxOf (sfx l : List Char) : Bool :=
  l.drop (l.length - sfx.length) == sfx

/-- Split `l` at the first occurrence of `c`: `some (before, after)` with the
delimiter removed, or `none` when `c` does not occur. -/
def splitFirst (c : Char) : List Char → Option (List Char × List Char)
  | [] => none
  | x :: rest =>
    if x = c then some ([], rest)
    else (splitFirst c rest).map (fun p => (x :: p.1, p.2))

/-- Characters allowed after the first one in a URL scheme
(`urllib.parse.scheme_chars`). -/
def isSchemeChar (c : Char) : Bool :=
  c.isAlpha || c.isDigit || c = '+' || c = '-' || c = '.'

/-- The result shape of `urllib.parse.urlparse` restricted to the fields
`_extract_youtube_id` reads (`netloc`, `path`, `query`); `scheme` is kept for
fidelity, `params` is split off the path as `urlparse` does, and the fragment
is discarded. -/
structure Url where
  scheme : List Char
  netloc : List Char
  path : List Char
  query : List Char
  deriving Repr, DecidableEq

/-- Embeds `urlsplit` scheme detection: a scheme is present when a `:` occurs, the
text before it is non-empty, starts with an ASCII letter and continues with
scheme characters; the scheme is lower-cased and the rest follows the `:`. -/
def splitScheme (l : List Char) : List Char × List Char :=
  match splitFirst ':' l with
  | none => ([], l)
  | some (before, after) =>
    match before with
    | [] => ([], l)
    | c :: rest =>
      if c.isAlpha && rest.all isSchemeChar then
        ((c :: rest).map Char.toLower, after)
      else ([], l)

/-- Embeds `urlsplit` netloc extraction: when the remainder starts with `//`, the
netloc runs up to the next `/`, `?` or `#`. -/
def notNetlocEnd (c : Char) : Bool :=
  !(c = '/' || c = '?' || c = '#')

/-- Embeds `urlparse`'s `_splitparams`: when the path contains `;`, parameters are
split off the LAST path segment (after the last `/`; the whole path when it
has no `/`). -/
def splitParams (p : List Char) : List Char :=
  if p.contains ';' then
    if p.contains '/' then
      let r := p.reverse
      let segRev := r.takeWhile (fun c => c ≠ '/')
      let headRev := r.dropWhile (fun c => c ≠ '/')
      headRev.reverse ++ segRev.reverse.takeWhile (fun c => c ≠ ';')
    else p.takeWhile (fun c => c ≠ ';')
  else p

/-- Embedding of `urllib.parse.urlparse` for the ASCII fragment used here:
scheme, then fragment split at the first `#`, then netloc after `//`, then
query after the first `?`, then params split off the path. Total: the model
never fails (the `except` branch around `urlparse` in the source is for
exotic inputs — e.g. unmatched IPv6 brackets — outside this fragment). -/
def urlparse (l : List Char) : Url :=
  let (scheme, rest0) := splitScheme l
  let rest1 :=
    match splitFirst '#' rest0 with
    | some (before, _) => before
    | none => rest0
  let (netloc, rest2) :=
    match rest1 with
    | '/' :: '/' :: r => (r.takeWhile notNetlocEnd, r.dropWhile notNetlocEnd)
    | _ => ([], rest1)
  let (rawPath, query) :=
    match splitFirst '?' rest2 with
    | some (before, after) => (before, after)
    | none => (rest2, [])
  { scheme := scheme, netloc := netloc, path := splitParams rawPath, query := query }

/-- Hex digit value, for percent-decoding. -/
def hexVal (c : Char) : Option Nat :=
  if '0' ≤ c ∧ c ≤ '9' then some (c.toNat - '0'.toNat)
  else if 'a' ≤ c ∧ c ≤ 'f' then some (c.toNat - 'a'.toNat + 10)
  else if 'A' ≤ c ∧ c ≤ 'F' then some (c.toNat - 'A'.toNat + 10)
  else none

/-- Embeds `urllib.parse.unquote`: decode `%XX` escapes; a `%` not followed by two
hex digits is kept literally. Exact for ASCII escapes (`XX < 80`); for higher
bytes Python additionally runs UTF-8 decoding, which no input here uses. -/
def unquoteL : List Char → List Char
  | '%' :: h1 :: h2 :: rest =>
    match hexVal h1, hexVal h2 with
    | some a, some b => Char.ofNat (16 * a + b) :: unquoteL rest
    | _, _ => '%' :: unquoteL (h1 :: h2 :: rest)
  | c :: rest => c :: unquoteL rest
  | [] => []

/-- Embeds `urllib.parse.unquote_plus`: `+` becomes a space, then percent-decoding. -/
def unquotePlus (l : List Char) : List Char :=
  unquoteL (l.map (fun c => if c = '+' then ' ' else c))

/-- Python `qs.split('&')`: split at every `&` (empty fields kept). -/
def splitAmp : List Char → List (List Char)
  | [] => [[]]
  | '&' :: rest => [] :: splitAmp rest
  | c :: rest =>
    match splitAmp rest with
    | g :: gs => (c :: g) :: gs
    | [] => [[c]]

/-- Embeds `urllib.parse.parse_qsl` with the defaults used by `parse_qs` in the
source: split the query on `&`, skip empty fields, skip fields without `=`
and fields with an empty value (`keep_blank_values=False`), percent-decode
names and values. -/
def parse_qsl (q : List Char) : List (List Char × List Char) :=
  (splitAmp q).foldr
    (fun field acc =>
      if field.isEmpty then acc
      else
        match splitFirst '=' field with
        | none => acc
        | some (n, v) =>
          if v.isEmpty then acc else (unquotePlus n, unquotePlus v) :: acc)
    []

/-- Embeds `qs["v"][0]` together with `"v" in qs`: the value of the first pair named
`key` (in `parse_qs`'s dict, the list under a key collects the values in
field order, so index 0 is the first occurrence). -/
def qsFirst (prs : List (List Char × List Char)) (key : List Char) :
    Option (List Char) :=
  match prs with
  | [] => none
  | (n, v) :: rest => if n = key then some v else qsFirst rest key

/-- Embeds `(qs["v"][0] or "").split("&")[0]`: truncate at the first `&` (live only
when a `%26` escape decoded to `&`; `parse_qs` fields themselves never
contain a raw `&`). -/
def truncAmp (l : List Char) : List Char :=
  l.takeWhile (fun c => c ≠ '&')

/-- Embeds `host = (u.netloc or "").lower().replace("www.", "")` (line 35). -/
def hostOf (u : Url) : List Char :=
  removeWWW (u.netloc.map Char.toLower)

/-- The watch branch (lines 41-44): when the path is `/watch` and a `v`
parameter exists, its first value truncated at `&`, provided it matches the
identifier pattern. -/
def watchVid (u : Url) : Option (List Char) :=
  match (if u.path = "/watch".data
         then qsFirst (parse_qsl u.query) ("v".data) else none) with
  | some v0 =>
    let vid := truncAmp v0
    if isValidIdL vid then some vid else none
  | none => none

/-- Embeds `re.match(r"^/(shorts|live)/([A-Za-z0-9_-]{11})", path)` (line 46),
returning group 2: the path starts with `/shorts/` or `/live/` followed by at
least 11 identifier characters (the regex is unanchored at the end); the
first 11 such characters are the result. -/
def shortsLive (p : List Char) : Option (List Char) :=
  let attempt := fun (pre : List Char) =>
    match dropPref pre p with
    | some rest =>
      let h := rest.take 11
      if isValidIdL h then some h else none
    | none => none
  match attempt ("/shorts/".data) with
  | some v => some v
  | none => attempt ("/live/".data)

/-- Embeds `path.lstrip("/").split("/")[0]` (line 52): drop all leading slashes,
then take up to the next slash. -/
def firstSeg (p : List Char) : List Char :=
  (p.dropWhile (fun c => c = '/')).takeWhile (fun c => c ≠ '/')

/-- The two `ValueError`s `_extract_youtube_id` can raise: `invalidUrl` is
"URL do YouTube inválida." (the `except` around `urlparse`, unreachable in
this model because the embedded `urlparse` is total on the ASCII fragment),
`cannotExtract` is "Não consegui extrair um ID de vídeo válido do link
informado." (line 56). -/
inductive ExtractErr where
  | invalidUrl
  | cannotExtract
  deriving Repr, DecidableEq

/-- Core of `_extract_youtube_id` after the `.strip()` (lines 26-56). -/
def extractCore (s : List Char) : Except ExtractErr (List Char) :=
  if isValidIdL s then Except.ok s
  else
    let u := urlparse s
    let host := hostOf u
    let fromTube : Option (List Char) :=
      if sfxOf ("youtube.com".data) host then
        match watchVid u with
        | some v => some v
        | none => shortsLive u.path
      else none
    match fromTube with
    | some v => Except.ok v
    | none =>
      if host = "youtu.be".data then
        let seg := firstSeg u.path
        if isValidIdL seg then Except.ok seg
        else Except.error ExtractErr.cannotExtract
      else Except.error ExtractErr.cannotExtract

/-- Embeds `_extract_youtube_id(url_or_id)` (lines 14-56): coerce `None` to `""`,
strip, then run the extraction cascade. -/
def _extract_youtube_id (o : Option String) : Except ExtractErr String :=
  (extractCore (pyStripL (pyOrEmpty o).data)).map (fun l => ⟨l⟩)

/-- The failure taxonomy of `youtube_transcript_api._errors` as far as
`carrega_youtube` distinguishes it (lines 81-89); `other` carries the
exception's type name (`type(last_err).__name__`). -/
inductive YteError where
  | transcriptsDisabled
  | noTranscriptFound
  | noTranscriptAvailable
  | videoUnavailable
  | invalidVideoId
  | other (name : String)
  deriving Repr, DecidableEq

/-- One transcript entry as `carrega_youtube` reads it: a dict whose `text`
field may be absent — `item.get("text", "")` (line 91) defaults to `""`. -/
structure TranscriptItem where
  text : Option String
  deriving Repr, DecidableEq

/-- Embeds `item.get("text", "")`. -/
def getText (it : TranscriptItem) : String :=
  it.text.getD ("")

/-- The external capability `YouTubeTranscriptApi.get_transcript(video_id,
languages=[lang])`: an ordered list of caption records, or a typed failure,
per (identifier, language) pair. -/
abbrev Api := String → String → Except YteError (List TranscriptItem)

/-- The errors `carrega_youtube` can raise, one per distinct message:
`invalidIdentifier` propagates the extractor's `ValueError`; the rest are the
`RuntimeError`s of lines 82-93 (`noTranscriptAvailable` covers both
`NoTranscriptFound` and `NoTranscriptAvailable`, which share a message;
`unclassified` carries the underlying exception's type name). -/
inductive LoadErr where
  | invalidIdentifier (e : ExtractErr)
  | transcriptsDisabled
  | noTranscriptAvailable
  | videoUnavailable
  | invalidVideoId
  | unclassified (name : String)
  | emptyTranscript
  deriving Repr, DecidableEq

/-- The `isinstance` chain of lines 81-89 mapping the last recorded failure
to the raised error. -/
def classifyErr : YteError → LoadErr
  | YteError.transcriptsDisabled => LoadErr.transcriptsDisabled
  | YteError.noTranscriptFound => LoadErr.noTranscriptAvailable
  | YteError.noTranscriptAvailable => LoadErr.noTranscriptAvailable
  | YteError.videoUnavailable => LoadErr.videoUnavailable
  | YteError.invalidVideoId => LoadErr.invalidVideoId
  | YteError.other n => LoadErr.unclassified n

/-- The fixed language preference list (line 69). -/
def idiomas : List String := ["pt-BR", "pt", "en"]

/-- The `for lang in idiomas` loop (lines 73-78): first success wins and
stops the iteration, keeping whatever failure was last recorded before it;
each failure overwrites `last_err` and the loop continues. -/
def fetchLoop (api : Api) (vid : String) :
    List String → Option YteError → Option (List TranscriptItem) × Option YteError
  | [], last => (none, last)
  | lang :: rest, last =>
    match api vid lang with
    | Except.ok tr => (some tr, last)
    | Except.error e => fetchLoop api vid rest (some e)

/-- Embeds `"\n".join(...)`. -/
def joinNL (ts : List String) : String :=
  String.intercalate ("\n") ts

/-- The metadata dict of the returned `Document` (lines 97-101). -/
structure DocMetadata where
  source : String
  video_id : String
  loader : String
  deriving Repr, DecidableEq

/-- Embeds `langchain.schema.Document` as `carrega_youtube` builds it. -/
structure Document where
  page_content : String
  metadata : DocMetadata
  deriving Repr, DecidableEq

/-- Embeds `carrega_youtube(url_ou_id)` (lines 62-102), with the transcript service
abstracted as `api`.  When the loop ends with no transcript and no recorded
error (impossible here since `idiomas` is non-empty), Python's `isinstance`
chain falls through to the generic branch with `type(None).__name__`. -/
def carrega_youtube (api : Api) (input : Option String) : Except LoadErr Document :=
  match _extract_youtube_id input with
  | Except.error e => Except.error (LoadErr.invalidIdentifier e)
  | Except.ok vid =>
    match fetchLoop api vid idiomas none with
    | (none, some e) => Except.error (classifyErr e)
    | (none, none) => Except.error (LoadErr.unclassified ("NoneType"))
    | (some tr, _) =>
      let text := pyStrip (joinNL (tr.map getText))
      if text = "" then Except.error LoadErr.emptyTranscript
      else
        Except.ok
          { page_content := text
            metadata :=
              { source := "https://www.youtube.com/watch?v=" ++ vid
                video_id := vid
                loader := "youtube_transcript_api" } }

/-- The character list `_extract_youtube_id` works on for a string input:
`s = (url_or_id or "").strip()` (line 23). -/
def stripped (s : String) : List Char :=
  pyStripL s.data

/-- The host normalization as the spec words it (§4.1 step 3): lower-case the
host and strip ONE leading `www.` prefix when present, altering nothing else.
Stated for comparison with the code's `hostOf`, which uses Python
`str.replace` and hence removes every occurrence. -/
def specHostNorm (nl : List Char) : List Char :=
  match dropPref ("www.".data) (nl.map Char.toLower) with
  | some rest => rest
  | none => nl.map Char.toLower

theorem extract_some (s : String) :
    _extract_youtube_id (some s) =
      (extractCore (stripped s)).map (fun l => (⟨l⟩ : String)) := rfl

/-- C6: a string whose trimmed form is exactly 11 characters from
`[A-Za-z0-9_-]` is returned unchanged (after trimming) as the identifier. -/
theorem bare_id_extract (s : String)
    (h : isValidIdL (stripped s) = true) :
    _extract_youtube_id (some s) = Except.ok (pyStrip s) := by
  rw [extract_some]
  unfold extractCore
  simp [h]
  rfl

/-- C6 witness: a bare identifier surrounded by whitespace. -/
theorem bare_id_extract_witness :
    _extract_youtube_id (some ("  dQw4w9WgXcQ  ")) = Except.ok ("dQw4w9WgXcQ") := by
  have h := bare_id_extract ("  dQw4w9WgXcQ  ") rfl
  rw [h]
  rfl

/-- C10: a `None` input, or an input that is empty or all whitespace after
trimming, is coerced to the empty string and fails with the
`InvalidIdentifier` `ValueError` of line 56 — no crash. -/
theorem degenerate_extract (o : Option String)
    (h : pyStripL (pyOrEmpty o).data = []) :
    _extract_youtube_id o = Except.error ExtractErr.cannotExtract := by
  unfold _extract_youtube_id
  rw [h]
  rfl

/-- C10 witness: `None` and an all-whitespace string both fail with the
classified error. -/
theorem degenerate_extract_witness :
    _extract_youtube_id none = Except.error ExtractErr.cannotExtract ∧
    _extract_youtube_id (some ("   ")) = Except.error ExtractErr.cannotExtract :=
  ⟨degenerate_extract none rfl, degenerate_extract (some ("   ")) rfl⟩

/-- Unfolding of `extractCore` once the bare-identifier rule has failed:
the URL cascade of lines 30-56. -/
theorem extractCore_eq (s : List Char) (h : isValidIdL s = false) :
    extractCore s =
      (match (if sfxOf ("youtube.com".data) (hostOf (urlparse s)) = true then
               match watchVid (urlparse s) with
               | some v => some v
               | none => shortsLive (urlparse s).path
             else none) with
       | some v => Except.ok v
       | none =>
         if hostOf (urlparse s) = "youtu.be".data then
           (if isValidIdL (firstSeg (urlparse s).path) = true then
             Except.ok (firstSeg (urlparse s).path)
           else Except.error ExtractErr.cannotExtract)
         else Except.error ExtractErr.cannotExtract) := by
  unfold extractCore
  rw [h]
  rfl

/-- C1: on a canonical watch URL — normalized host ending in `youtube.com`,
path `/watch`, a `v` query parameter whose first value truncated at any
embedded `&` matches the 11-character pattern — `extract` returns that
truncated value, whatever other query parameters follow. -/
theorem watch_url_extract (s : String) (v : List Char)
    (hbare : isValidIdL (stripped s) = false)
    (hhost : sfxOf ("youtube.com".data) (hostOf (urlparse (stripped s))) = true)
    (hpath : (urlparse (stripped s)).path = "/watch".data)
    (hv : qsFirst (parse_qsl (urlparse (stripped s)).query) ("v".data) = some v)
    (hvalid : isValidIdL (truncAmp v) = true) :
    _extract_youtube_id (some s) = Except.ok ⟨truncAmp v⟩ := by
  have hw : watchVid (urlparse (stripped s)) = some (truncAmp v) := by
    unfold watchVid
    rw [hpath]
    simp [hv, hvalid]
  rw [extract_some, extractCore_eq _ hbare, hhost, hw]
  rfl

/-- C1 witness: the spec's scenario, a trailing `list` parameter. -/
theorem watch_url_extract_witness :
    _extract_youtube_id (some ("https://www.youtube.com/watch?v=dQw4w9WgXcQ&list=PLxyz"))
      = Except.ok ("dQw4w9WgXcQ") := by
  have h := watch_url_extract ("https://www.youtube.com/watch?v=dQw4w9WgXcQ&list=PLxyz")
    ("dQw4w9WgXcQ".data) rfl rfl rfl rfl rfl
  rw [h]
  rfl

/-- C7: when the normalized host is exactly `youtu.be`, the first path
segment is returned when it matches the identifier pattern and the
extraction fails with `InvalidIdentifier` otherwise. -/
theorem shortlink_extract (s : String)
    (hbare : isValidIdL (stripped s) = false)
    (hhost : hostOf (urlparse (stripped s)) = "youtu.be".data) :
    _extract_youtube_id (some s) =
      (if isValidIdL (firstSeg (urlparse (stripped s)).path) = true then
        Except.ok ⟨firstSeg (urlparse (stripped s)).path⟩
      else Except.error ExtractErr.cannotExtract) := by
  have hy : sfxOf ("youtube.com".data) ("youtu.be".data) = false := by decide
  rw [extract_some, extractCore_eq _ hbare, hhost, hy]
  by_cases hseg : isValidIdL (firstSeg (urlparse (stripped s)).path) = true
  · rw [if_pos hseg, if_pos hseg]
    rfl
  · rw [if_neg hseg, if_neg hseg]
    rfl

/-- C7 witness: the spec's short-link scenario. -/
theorem shortlink_extract_witness :
    _extract_youtube_id (some ("https://youtu.be/dQw4w9WgXcQ")) = Except.ok ("dQw4w9WgXcQ") := by
  have h := shortlink_extract ("https://youtu.be/dQw4w9WgXcQ") rfl rfl
  rw [h]
  rfl

/-- C8: when no position that can carry an identifier does — the input is
not a bare identifier, the watch branch yields nothing, the shorts/live
pattern does not match the path, and the first path segment is not a valid
identifier — `extract` fails with `InvalidIdentifier`, whatever the host. -/
theorem no_id_extract (s : String)
    (hbare : isValidIdL (stripped s) = false)
    (hwatch : watchVid (urlparse (stripped s)) = none)
    (hshorts : shortsLive (urlparse (stripped s)).path = none)
    (hseg : isValidIdL (firstSeg (urlparse (stripped s)).path) = false) :
    _extract_youtube_id (some s) = Except.error ExtractErr.cannotExtract := by
  rw [extract_some, extractCore_eq _ hbare, hwatch, hshorts]
  by_cases h1 : sfxOf ("youtube.com".data) (hostOf (urlparse (stripped s))) = true
  · rw [if_pos h1]
    by_cases h2 : hostOf (urlparse (stripped s)) = "youtu.be".data
    · rw [if_pos h2, hseg]
      rfl
    · rw [if_neg h2]
      rfl
  · rw [if_neg h1]
    by_cases h2 : hostOf (urlparse (stripped s)) = "youtu.be".data
    · rw [if_pos h2, hseg]
      rfl
    · rw [if_neg h2]
      rfl

/-- C8 witness: the spec's playlist scenario. -/
theorem no_id_extract_witness :
    _extract_youtube_id (some ("https://www.youtube.com/playlist?list=PLxyz"))
      = Except.error ExtractErr.cannotExtract :=
  no_id_extract ("https://www.youtube.com/playlist?list=PLxyz") rfl rfl rfl rfl

theorem dropPref_append (p l : List Char) : dropPref p (p ++ l) = some l := by
  induction p with
  | nil => rfl
  | cons c cs ih => simp [dropPref, ih]

theorem dropPref_eq_some : ∀ {p l r : List Char}, dropPref p l = some r → l = p ++ r
  | [], l, r, h => by
    rw [Option.some.inj h]
    rfl
  | _ :: _, [], _, h => by exact absurd h (by simp [dropPref])
  | p :: ps, c :: cs, r, h => by
    by_cases hc : c = p
    · rw [dropPref, if_pos hc] at h
      rw [List.cons_append, hc, dropPref_eq_some h]
    · rw [dropPref, if_neg hc] at h
      exact absurd h (by simp)

theorem removeWWW_id (l : List Char) (h : hasWWW l = false) : removeWWW l = l := by
  induction l using removeWWW.induct with
  | case1 rest ih => simp [hasWWW] at h
  | case2 c rest hne ih =>
    have h' : hasWWW rest = false := by
      rw [hasWWW.eq_def] at h
      split at h
      · exact absurd h (by simp)
      · rename_i c2 r2 hne2 heq
        injection heq with e1 e2
        rw [e2]
        exact h
      · rename_i heq
        exact absurd heq (by simp)
    rw [removeWWW.eq_def]
    split
    · rename_i r heq
      injection heq with e1 e2
      exact absurd e2 (fun h2 => hne r e1 h2)
    · rename_i c2 r2 hne2 heq
      injection heq with e1 e2
      rw [← e1, ← e2, ih h']
    · rename_i heq
      exact absurd heq (by simp)
  | case3 => rfl

/-- C4 counterexample: for the path `/shorts/abcdefghijkl` the shorts
segment has 12 identifier characters — not "exactly 11 ... (no more)" as the
claim requires — yet the unanchored regex of line 46 still fires and
`extract` returns the first 11 of them. -/
theorem shorts_unanchored_cex :
    (urlparse (stripped ("https://www.youtube.com/shorts/abcdefghijkl"))).path
      = "/shorts/abcdefghijkl".data
    ∧ ("abcdefghijkl".data).all isIdChar = true
    ∧ ("abcdefghijkl".data).length = 12
    ∧ isValidIdL ("abcdefghijkl".data) = false
    ∧ _extract_youtube_id (some ("https://www.youtube.com/shorts/abcdefghijkl"))
        = Except.ok ("abcdefghijk") :=
  ⟨rfl, rfl, rfl, rfl, rfl⟩

/-- C4 amended: when the normalized host ends with `youtube.com`, the watch
branch yields nothing, and the path is a short-form or live-stream prefix
followed by AT LEAST 11 identifier characters, `extract` returns the first
11 of those characters (the line-46 regex is unanchored at the end, so it
does not require exactly 11 and ignores whatever follows them). -/
theorem shorts_live_extract (s : String) (pre t : List Char)
    (hbare : isValidIdL (stripped s) = false)
    (hhost : sfxOf ("youtube.com".data) (hostOf (urlparse (stripped s))) = true)
    (hwatch : watchVid (urlparse (stripped s)) = none)
    (hpre : pre = "/shorts/".data ∨ pre = "/live/".data)
    (hpath : (urlparse (stripped s)).path = pre ++ t)
    (hlen : 11 ≤ t.length)
    (hall : (t.take 11).all isIdChar = true) :
    _extract_youtube_id (some s) = Except.ok ⟨t.take 11⟩ := by
  have hvalid : isValidIdL (t.take 11) = true := by
    simp [isValidIdL, List.length_take, Nat.min_eq_left hlen, hall]
  have hsl : shortsLive (pre ++ t) = some (t.take 11) := by
    rcases hpre with hp | hp <;> subst hp
    · simp only [shortsLive]
      rw [dropPref_append]
      dsimp only
      rw [hvalid]
      rfl
    · have hs : dropPref ("/shorts/".data) ("/live/".data ++ t) = none := rfl
      simp only [shortsLive]
      rw [hs, dropPref_append]
      dsimp only
      rw [hvalid]
      rfl
  rw [extract_some, extractCore_eq _ hbare, hhost, hwatch, hpath, hsl]
  rfl

/-- C4 amended witness: a shorts path with 12 trailing identifier characters
still extracts, returning the first 11. -/
theorem shorts_live_extract_witness :
    _extract_youtube_id (some ("https://www.youtube.com/shorts/abc_def-123Z"))
      = Except.ok ("abc_def-123") := by
  have h := shorts_live_extract ("https://www.youtube.com/shorts/abc_def-123Z")
    ("/shorts/".data) ("abc_def-123Z".data) rfl rfl rfl (Or.inl rfl) rfl (by decide) rfl
  rw [h]
  rfl

/-- C5 counterexample: for the input `https://youtu.www.be/dQw4w9WgXcQ` the
URL's host is `youtu.www.be`; the spec-worded normalization (lower-case,
strip one LEADING `www.`) leaves it unchanged, but the code's line 35
compares `youtu.be` — `str.replace` removed an interior `www.` — and the
difference is observable: `extract` accepts the link via the short-link
branch. -/
theorem host_norm_cex :
    (urlparse (stripped ("https://youtu.www.be/dQw4w9WgXcQ"))).netloc
      = "youtu.www.be".data
    ∧ hostOf (urlparse (stripped ("https://youtu.www.be/dQw4w9WgXcQ")))
        = "youtu.be".data
    ∧ specHostNorm ("youtu.www.be".data) = "youtu.www.be".data
    ∧ hostOf (urlparse (stripped ("https://youtu.www.be/dQw4w9WgXcQ")))
        ≠ specHostNorm ("youtu.www.be".data)
    ∧ _extract_youtube_id (some ("https://youtu.www.be/dQw4w9WgXcQ"))
        = Except.ok ("dQw4w9WgXcQ") :=
  ⟨rfl, rfl, rfl, by decide, rfl⟩

/-- C5 amended: the host `extract` compares is the URL's host lower-cased
with EVERY occurrence of the substring `www.` removed; this agrees with the
spec's "strip one leading `www.`" exactly when no `www.` remains after that
single strip — i.e. when `www.` occurs at most once, and only leading. -/
theorem host_norm_amended (u : Url)
    (h : hasWWW (specHostNorm u.netloc) = false) :
    hostOf u = specHostNorm u.netloc := by
  unfold hostOf
  cases hd : dropPref ("www.".data) (u.netloc.map Char.toLower) with
  | none =>
    simp only [specHostNorm, hd] at h ⊢
    exact removeWWW_id _ h
  | some rest =>
    simp only [specHostNorm, hd] at h ⊢
    have e : u.netloc.map Char.toLower = "www.".data ++ rest := dropPref_eq_some hd
    calc removeWWW (u.netloc.map Char.toLower)
        = removeWWW ("www.".data ++ rest) := by rw [e]
      _ = removeWWW rest := rfl
      _ = rest := removeWWW_id rest h

/-- C5 amended witness: for the canonical host `www.youtube.com` (one
leading `www.`), the code's normalization and the spec's coincide. -/
theorem host_norm_amended_witness :
    hostOf (urlparse (stripped ("https://www.youtube.com/watch?v=dQw4w9WgXcQ")))
      = specHostNorm ("www.youtube.com".data) :=
  host_norm_amended (urlparse (stripped ("https://www.youtube.com/watch?v=dQw4w9WgXcQ")))
    (by decide)

/-- C2: when the retrieved lines join and trim to nothing, `load` fails with
`EmptyTranscript`; and `load` never returns a document with empty content. -/
theorem load_nonempty_content :
    (∀ (api : Api) (input : Option String) (vid : String) (tr : List TranscriptItem)
       (le : Option YteError),
       _extract_youtube_id input = Except.ok vid →
       fetchLoop api vid idiomas none = (some tr, le) →
       pyStrip (joinNL (tr.map getText)) = "" →
       carrega_youtube api input = Except.error LoadErr.emptyTranscript)
    ∧ (∀ (api : Api) (input : Option String) (doc : Document),
       carrega_youtube api input = Except.ok doc → doc.page_content ≠ "") := by
  constructor
  · intro api input vid tr le hid hloop hempty
    unfold carrega_youtube
    simp only [hid, hloop]
    simp [hempty]
  · intro api input doc h
    unfold carrega_youtube at h
    split at h
    · exact absurd h (by simp)
    · split at h
      · exact absurd h (by simp)
      · exact absurd h (by simp)
      · dsimp only at h
        split at h
        · exact absurd h (by simp)
        · rename_i hne
          injection h with h'
          rw [← h']
          exact hne

/-- C2 witness: an upstream returning an empty line list yields
`EmptyTranscript`, not a success. -/
theorem load_nonempty_content_witness :
    carrega_youtube (fun _ _ => Except.ok []) (some ("dQw4w9WgXcQ"))
      = Except.error LoadErr.emptyTranscript :=
  load_nonempty_content.left (fun _ _ => Except.ok []) (some ("dQw4w9WgXcQ"))
    "dQw4w9WgXcQ" [] none rfl rfl rfl

/-- C3: when every language attempt fails, `load` fails with the
classification of the most recently recorded cause (the `isinstance` chain of
lines 81-89), and a `TranscriptsDisabled` cause yields exactly the
`TranscriptsDisabled` failure, not a generic one. -/
theorem load_classified_failure (api : Api) (input : Option String) (vid : String)
    (e : YteError)
    (hid : _extract_youtube_id input = Except.ok vid)
    (hloop : fetchLoop api vid idiomas none = (none, some e)) :
    carrega_youtube api input = Except.error (classifyErr e)
    ∧ (e = YteError.transcriptsDisabled → classifyErr e = LoadErr.transcriptsDisabled) := by
  constructor
  · unfold carrega_youtube
    simp only [hid, hloop]
  · intro h
    subst h
    rfl

/-- C3 witness: an upstream that reports disabled captions in every language
makes `load` fail with `TranscriptsDisabled`. -/
theorem load_classified_failure_witness :
    carrega_youtube (fun _ _ => Except.error YteError.transcriptsDisabled)
      (some ("dQw4w9WgXcQ")) = Except.error LoadErr.transcriptsDisabled :=
  (load_classified_failure (fun _ _ => Except.error YteError.transcriptsDisabled)
    (some ("dQw4w9WgXcQ")) "dQw4w9WgXcQ" YteError.transcriptsDisabled rfl rfl).left

/-- C9: every successful `load` returns the retrieved lines joined in order
with newlines and trimmed, with `metadata.source` the canonical watch URL for
the resolved identifier, `metadata.video_id` that identifier, and
`metadata.loader` the fixed retrieval tag. -/
theorem load_success_shape (api : Api) (input : Option String) (doc : Document)
    (h : carrega_youtube api input = Except.ok doc) :
    ∃ vid tr le,
      _extract_youtube_id input = Except.ok vid ∧
      fetchLoop api vid idiomas none = (some tr, le) ∧
      doc.page_content = pyStrip (joinNL (tr.map getText)) ∧
      doc.metadata.source = "https://www.youtube.com/watch?v=" ++ vid ∧
      doc.metadata.video_id = vid ∧
      doc.metadata.loader = "youtube_transcript_api" := by
  unfold carrega_youtube at h
  split at h
  · exact absurd h (by simp)
  · rename_i vid hid
    split at h
    · exact absurd h (by simp)
    · exact absurd h (by simp)
    · rename_i tr le hloop
      dsimp only at h
      split at h
      · exact absurd h (by simp)
      · injection h with h'
        exact ⟨vid, tr, le, hid, hloop, by rw [← h'], by rw [← h'], by rw [← h'],
          by rw [← h']⟩

/-- C9 witness: the spec's fallback-language scenario — captions only in the
third-preference language succeed with the expected content and metadata. -/
theorem load_success_shape_witness :
    ∃ vid tr le,
      _extract_youtube_id (some ("dQw4w9WgXcQ")) = Except.ok vid ∧
      fetchLoop
        (fun _ lang =>
          if lang = "en" then
            Except.ok [⟨some ("hello")⟩, ⟨some ("world")⟩]
          else Except.error YteError.noTranscriptFound)
        vid idiomas none = (some tr, le) ∧
      ({ page_content := "hello\nworld"
         metadata :=
           { source := "https://www.youtube.com/watch?v=dQw4w9WgXcQ"
             video_id := "dQw4w9WgXcQ"
             loader := "youtube_transcript_api" } } : Document).page_content
        = pyStrip (joinNL (tr.map getText)) ∧
      ({ page_content := "hello\nworld"
         metadata :=
           { source := "https://www.youtube.com/watch?v=dQw4w9WgXcQ"
             video_id := "dQw4w9WgXcQ"
             loader := "youtube_transcript_api" } } : Document).metadata.source
        = "https://www.youtube.com/watch?v=" ++ vid ∧
      ({ page_content := "hello\nworld"
         metadata :=
           { source := "https://www.youtube.com/watch?v=dQw4w9WgXcQ"
             video_id := "dQw4w9WgXcQ"
             loader := "youtube_transcript_api" } } : Document).metadata.video_id = vid ∧
      ({ page_content := "hello\nworld"
         metadata :=
           { source := "https://www.youtube.com/watch?v=dQw4w9WgXcQ"
             video_id := "dQw4w9WgXcQ"
             loader := "youtube_transcript_api" } } : Document).metadata.loader
        = "youtube_transcript_api" :=
  load_success_shape
    (fun _ lang =>
      if lang = "en" then
        Except.ok [⟨some ("hello")⟩, ⟨some ("world")⟩]
      else Except.error YteError.noTranscriptFound)
    (some ("dQw4w9WgXcQ"))
    { page_content := "hello\nworld"
      metadata :=
        { source := "https://www.youtube.com/watch?v=dQw4w9WgXcQ"
          video_id := "dQw4w9WgXcQ"
          loader := "youtube_transcript_api" } }
    rfl

end Max02
